import Mathlib

/-!
# Verification of the WebGL quad renderer (SebastianDang/WebGL)

Shallow embedding of src/js/main.js. The file holds two variants of the
program: a static variant that draws a white quad once, and an animated
variant that re-draws a colored quad every frame while rotating it.

Modelling conventions:
- GPU calls are recorded as a trace (a list of GLCall events), so that
  properties such as "exactly one draw call" or "linking is attempted"
  are statements about traces.
- glMatrix 4x4 matrices become Matrix (Fin 4) (Fin 4) Real in the usual
  mathematical (column-vector) convention; glMatrix stores matrices
  column-major and mat4.multiply(out, a, b) computes the product a * b,
  mat4.rotate / mat4.translate / mat4.scale right-multiply their input.
- Buffer contents are lists of rational literal values (the Float32Array
  payloads, whose entries here are all exactly representable).
- Shader source text is opaque configuration (the spec excludes its
  content from scope), so the two source constants are opaque strings.
-/

/-- The two WebGL shader stage kinds used by the program. -/
inductive ShaderType where
  | vertex
  | fragment
deriving DecidableEq

/-- A successfully compiled shader handle, as returned by loadShader. -/
structure Shader where
  type : ShaderType
  source : String
deriving DecidableEq

/-- A program object with its two attached stages (gl.createProgram plus
the two gl.attachShader calls). Its fields are real shader handles: the
WebGL IDL declares the shader parameter of attachShader non-nullable, so
a program can only ever hold successfully compiled stages. -/
structure Program where
  vertex : Shader
  fragment : Shader
deriving DecidableEq

/-- Buffer usage hint passed to gl.bufferData. -/
inductive Usage where
  | staticDraw
deriving DecidableEq

/-- Primitive topology passed to gl.drawArrays. -/
inductive Primitive where
  | triangleStrip
deriving DecidableEq

/-- Observable events of one run: GL calls, alerts and frame scheduling. -/
inductive GLCall where
  | compileShader (t : ShaderType) (src : String)
  | deleteShader (t : ShaderType)
  | attachShader (s : Shader)
  | linkProgram
  | alert (msg : String)
  | getAttribLocation (p : Program) (name : String)
  | getUniformLocation (p : Program) (name : String)
  | bufferData (data : List ℚ) (usage : Usage)
  | clear
  | vertexAttribPointer (name : String) (numComponents : ℕ)
  | useProgram (p : Option Program)
  | uniformMatrix4fv (name : String) (m : Matrix (Fin 4) (Fin 4) ℝ)
  | drawArrays (mode : Primitive) (offset count : ℕ)
  | requestAnimationFrame

/-- The WebGL context, abstracted to the decisions the driver makes for
this program: which sources compile, the diagnostic logs, whether a
program with the given attached stages links, and the canvas size.
Calls whose IDL parameters are non-nullable (attachShader with a shader,
getAttribLocation and getUniformLocation with a program) throw a
TypeError when handed null, before any driver decision, so linkOk is
only consulted with two real shader handles. -/
structure GLCtx where
  compileOk : ShaderType → String → Bool
  shaderInfoLog : ShaderType → String → String
  linkOk : Shader → Shader → Bool
  programInfoLog : String
  clientWidth : ℝ
  clientHeight : ℝ

/-- loadShader(gl, type, source): creates a shader, uploads the source and
compiles it; on compile failure it alerts with the info log, deletes the
shader and returns null. -/
def loadShader (gl : GLCtx) (t : ShaderType) (src : String) :
    Option Shader × List GLCall :=
  if gl.compileOk t src then
    (some ⟨t, src⟩, [.compileShader t src])
  else
    (none,
      [.compileShader t src,
       .alert ("An error occurred compiling the shaders: " ++
         gl.shaderInfoLog t src),
       .deleteShader t])

/-- initShaderProgram(gl, vsSource, fsSource): loads both stages, then
creates a program and attaches both results. When a stage failed to
compile, loadShader returned null and the corresponding
gl.attachShader(shaderProgram, null) call throws an uncaught TypeError
(the IDL shader parameter is non-nullable), aborting construction
before any link step; this thrown path is the Except.error result, and
the attempted attach performs no GL call. With both stages compiled,
the program is linked and the LINK_STATUS check decides between the
program handle and a reported null. The static variant names this same
function initShader. -/
def initShaderProgram (gl : GLCtx) (vsrc fsrc : String) :
    Except Unit (Option Program) × List GLCall :=
  let v := loadShader gl .vertex vsrc
  let f := loadShader gl .fragment fsrc
  match v.1, f.1 with
  | none, _ => (.error (), v.2 ++ f.2)
  | some vs, none => (.error (), v.2 ++ f.2 ++ [.attachShader vs])
  | some vs, some fs =>
      let linkTrace : List GLCall :=
        [.attachShader vs, .attachShader fs, .linkProgram]
      if gl.linkOk vs fs then
        (.ok (some ⟨vs, fs⟩), v.2 ++ f.2 ++ linkTrace)
      else
        (.ok none, v.2 ++ f.2 ++ linkTrace ++
          [.alert ("Unable to initialize the shader program: " ++
            gl.programInfoLog)])

/-- The shader program info record built in main: the program handle and
the attribute and uniform lookups performed on it. Lookup results are
opaque, so only the handle is carried; the lookups themselves appear in
the trace of main. -/
structure ProgramInfo where
  program : Option Program

/-- 4x4 real matrices, the denotation of glMatrix mat4 values. -/
abbrev M4 := Matrix (Fin 4) (Fin 4) ℝ

/-- mat4.create(): the identity matrix. -/
noncomputable def mat4create : M4 := 1

/-- Rotation about the Z axis, the effect of mat4.rotate with axis
[0, 0, 1] (glMatrix column-major storage read as a mathematical matrix
acting on column vectors). -/
noncomputable def rotZ (θ : ℝ) : M4 :=
  !![Real.cos θ, -Real.sin θ, 0, 0;
     Real.sin θ,  Real.cos θ, 0, 0;
     0, 0, 1, 0;
     0, 0, 0, 1]

/-- Rotation about the Y axis, the effect of mat4.rotate with axis
[0, 1, 0]. -/
noncomputable def rotY (θ : ℝ) : M4 :=
  !![Real.cos θ, 0, Real.sin θ, 0;
     0, 1, 0, 0;
     -Real.sin θ, 0, Real.cos θ, 0;
     0, 0, 0, 1]

/-- Rotation about the X axis, the effect of mat4.rotate with axis
[1, 0, 0]. -/
noncomputable def rotX (θ : ℝ) : M4 :=
  !![1, 0, 0, 0;
     0, Real.cos θ, -Real.sin θ, 0;
     0, Real.sin θ,  Real.cos θ, 0;
     0, 0, 0, 1]

/-- Translation by (x, y, z); mat4.translate(out, a, v) computes
a * translateM v. -/
noncomputable def translateM (x y z : ℝ) : M4 :=
  !![1, 0, 0, x;
     0, 1, 0, y;
     0, 0, 1, z;
     0, 0, 0, 1]

/-- Scaling by (x, y, z); mat4.scale(out, a, v) computes a * scaleM v. -/
noncomputable def scaleM (x y z : ℝ) : M4 :=
  !![x, 0, 0, 0;
     0, y, 0, 0;
     0, 0, z, 0;
     0, 0, 0, 1]

/-- mat4.perspective(out, fovy, aspect, near, far) for finite far. -/
noncomputable def perspectiveM (fovy aspect near far : ℝ) : M4 :=
  let f := 1 / Real.tan (fovy / 2)
  let nf := 1 / (near - far)
  !![f / aspect, 0, 0, 0;
     0, f, 0, 0;
     0, 0, (far + near) * nf, 2 * far * near * nf;
     0, 0, -1, 0]

/-- Composing two Z rotations adds the angles. -/
theorem rotZ_mul_rotZ (a b : ℝ) : rotZ a * rotZ b = rotZ (a + b) := by
  ext i j
  fin_cases i <;> fin_cases j <;>
    simp [rotZ, Matrix.mul_apply, Fin.sum_univ_four, Real.cos_add,
      Real.sin_add] <;> ring

/-- A zero-angle Z rotation is the identity. -/
theorem rotZ_zero : rotZ 0 = 1 := by
  ext i j
  fin_cases i <;> fin_cases j <;>
    simp [rotZ, Matrix.one_apply, Matrix.vecHead, Matrix.vecTail]

/-- Scaling by (1, 1, 1) is the identity. -/
theorem scaleM_one : scaleM 1 1 1 = 1 := by
  ext i j
  fin_cases i <;> fin_cases j <;>
    simp [scaleM, Matrix.one_apply, Matrix.vecHead, Matrix.vecTail]

/-- Groups a flat float list into consecutive pairs, the way a
2-component vertex attribute reads the position buffer. -/
def pairUp : List ℚ → List (ℚ × ℚ)
  | a :: b :: rest => (a, b) :: pairUp rest
  | _ => []

/-- Groups a flat float list into consecutive quadruples, the way a
4-component vertex attribute reads the color buffer. -/
def quadUp : List ℚ → List (ℚ × ℚ × ℚ × ℚ)
  | a :: b :: c :: d :: rest => (a, b, c, d) :: quadUp rest
  | _ => []

namespace Static

/-- The vertex shader source of the static variant (opaque text). -/
def shader_vertex : String := "static vertex shader source"

/-- The fragment shader source of the static variant (opaque text). -/
def shader_fragment : String := "static fragment shader source"

/-- The positions array literal of the static initBuffers. -/
def positions : List ℚ := [1, 1, -1, 1, 1, -1, -1, -1]

/-- The buffer set returned by the static initBuffers: one position
buffer holding the positions payload. -/
structure Buffers where
  position : List ℚ

/-- initBuffers(gl) of the static variant: creates the position buffer,
binds it and uploads the positions with the STATIC_DRAW hint. -/
def initBuffers : Buffers × List GLCall :=
  (⟨positions⟩, [.bufferData positions .staticDraw])

/-- drawScene(gl, programInfo, buffers) of the static variant: clears,
computes the perspective projection from the canvas aspect ratio,
translates an identity model-view matrix by (0, 0, -6), binds the
position attribute, sets the uniforms and draws 4 vertices as a
triangle strip. -/
noncomputable def drawScene (gl : GLCtx) (programInfo : ProgramInfo)
    (_buffers : Buffers) : List GLCall :=
  let fieldOfView := 45 * Real.pi / 180
  let aspect := gl.clientWidth / gl.clientHeight
  let projectionMatrix := perspectiveM fieldOfView aspect 0.1 100
  let modelViewMatrix := mat4create * translateM 0 0 (-6)
  [.clear,
   .vertexAttribPointer "Vertex" 2,
   .useProgram programInfo.program,
   .uniformMatrix4fv "Projection" projectionMatrix,
   .uniformMatrix4fv "ModelView" modelViewMatrix,
   .drawArrays .triangleStrip 0 4]

/-- main() of the static variant (after successful context acquisition):
builds the shader program via initShader (the same code as the animated
initShaderProgram). When construction threw, the exception propagates
out of main; when it returned null, the first lookup
gl.getAttribLocation(null, Vertex) throws a TypeError (non-nullable IDL
program parameter) and main aborts there, before initBuffers and
drawScene, performing no lookup. With a real program handle, main
performs the lookups, builds the buffers and calls drawScene exactly
once; it never schedules a frame callback. -/
noncomputable def main (gl : GLCtx) :
    Except Unit (Option Program) × List GLCall :=
  let sp := initShaderProgram gl shader_vertex shader_fragment
  match sp.1 with
  | .error _ => (.error (), sp.2)
  | .ok none => (.error (), sp.2)
  | .ok (some prog) =>
      let shaderProgramInfo : ProgramInfo := ⟨some prog⟩
      let lookups : List GLCall :=
        [.getAttribLocation prog "Vertex",
         .getUniformLocation prog "Projection",
         .getUniformLocation prog "ModelView"]
      let bufs := initBuffers
      (.ok (some prog), sp.2 ++ lookups ++ bufs.2 ++
        drawScene gl shaderProgramInfo bufs.1)

end Static

namespace Animated

/-- The vertex shader source of the animated variant (opaque text). -/
def SHADER_VERTEX : String := "animated vertex shader source"

/-- The fragment shader source of the animated variant (opaque text). -/
def SHADER_FRAGMENT : String := "animated fragment shader source"

/-- The positions array literal of the animated initBuffers. -/
def positions : List ℚ := [1, 1, -1, 1, 1, -1, -1, -1]

/-- The colors array literal of the animated initBuffers: white, red,
green, blue, one RGBA quadruple per vertex. -/
def colors : List ℚ :=
  [1, 1, 1, 1,
   1, 0, 0, 1,
   0, 1, 0, 1,
   0, 0, 1, 1]

/-- The buffer set returned by the animated initBuffers: a position
buffer and a color buffer with their uploaded payloads. -/
structure Buffers where
  position : List ℚ
  color : List ℚ

/-- initBuffers(gl) of the animated variant: uploads the positions and
then the colors, each once, each with the STATIC_DRAW hint. -/
def initBuffers : Buffers × List GLCall :=
  (⟨positions, colors⟩,
   [.bufferData positions .staticDraw, .bufferData colors .staticDraw])

/-- The singleRotation constant of animateScene.step:
360000 * Math.PI / 180 milliseconds (the time to complete one full
rotation at 1 radian per second, about 6283 ms). -/
noncomputable def singleRotation : ℝ := 360000 * Real.pi / 180

/-- The closure state of animateScene captured by step: start (null
until first assigned), last, and the toWorld matrix being animated.
The unused rotationCount variable is omitted. -/
structure AnimState where
  start : Option ℝ
  last : ℝ
  toWorld : M4

open Classical in
/-- The state-updating prefix of animateScene.step(timestamp): captures
start when it is still falsy (null or 0), computes progress, curr and
delta, and right-multiplies toWorld by the phase rotations: Z below
singleRotation, then Z, Y, X below twice singleRotation, then nothing. -/
noncomputable def stepUpdate (st : AnimState) (timestamp : ℝ) : AnimState :=
  let start := if st.start = none ∨ st.start = some 0
    then timestamp else st.start.getD 0
  let progress := timestamp - start
  let curr := progress * 0.001
  let delta := curr - st.last
  let toWorld :=
    if progress < singleRotation then
      st.toWorld * rotZ delta
    else if progress < 2 * singleRotation then
      st.toWorld * rotZ delta * rotY delta * rotX delta
    else
      st.toWorld
  ⟨some start, curr, toWorld⟩

/-- drawScene(gl, programInfo, buffers, toWorld) of the animated
variant: clears, computes the perspective projection, computes
modelViewMatrix = mat4.multiply(modelViewMatrix, toWorld, identity),
binds position and color attributes, sets the uniforms and draws 4
vertices as a triangle strip. It never writes to toWorld. -/
noncomputable def drawScene (gl : GLCtx) (programInfo : ProgramInfo)
    (_buffers : Buffers) (toWorld : M4) : List GLCall :=
  let fieldOfView := 45 * Real.pi / 180
  let aspect := gl.clientWidth / gl.clientHeight
  let projectionMatrix := perspectiveM fieldOfView aspect 0.1 100
  let modelViewMatrix := toWorld * mat4create
  [.clear,
   .vertexAttribPointer "Vertex" 2,
   .vertexAttribPointer "Color" 4,
   .useProgram programInfo.program,
   .uniformMatrix4fv "Projection" projectionMatrix,
   .uniformMatrix4fv "ModelView" modelViewMatrix,
   .drawArrays .triangleStrip 0 4]

/-- One whole invocation of animateScene.step(timestamp): update the
closure state, draw the scene with the updated toWorld, and
unconditionally request the next animation frame. -/
noncomputable def step (gl : GLCtx) (programInfo : ProgramInfo)
    (buffers : Buffers) (st : AnimState) (timestamp : ℝ) :
    AnimState × List GLCall :=
  let st' := stepUpdate st timestamp
  (st', drawScene gl programInfo buffers st'.toWorld ++
    [.requestAnimationFrame])

/-- Runs step over a list of frame timestamps, threading the closure
state, and returns the final state. -/
noncomputable def runSteps (gl : GLCtx) (programInfo : ProgramInfo)
    (buffers : Buffers) (st : AnimState) : List ℝ → AnimState
  | [] => st
  | ts :: rest =>
      runSteps gl programInfo buffers
        (step gl programInfo buffers st ts).1 rest

/-- The toWorld matrix built in the animated main before animateScene:
identity, scaled by (1, 1, 1), rotated by 0 radians about the Z axis,
then translated by (0, 0, -6). -/
noncomputable def initToWorld : M4 :=
  ((mat4create * scaleM 1 1 1) * rotZ 0) * translateM 0 0 (-6)

/-- The initial closure state of animateScene: start = null, last = 0,
toWorld as built in main. -/
noncomputable def animInit : AnimState := ⟨none, 0, initToWorld⟩

/-- main() of the animated variant (after successful context
acquisition): builds the shader program. When construction threw, the
exception propagates out of main; when it returned null, the first
lookup gl.getAttribLocation(null, Vertex) throws a TypeError
(non-nullable IDL program parameter) and main aborts there, before
initBuffers and animateScene, performing no lookup and scheduling no
frame. With a real program handle, main performs the four lookups,
builds both buffers, builds toWorld and calls animateScene, which
schedules the first frame callback. -/
noncomputable def main (gl : GLCtx) :
    Except Unit (Option Program) × List GLCall :=
  let sp := initShaderProgram gl SHADER_VERTEX SHADER_FRAGMENT
  match sp.1 with
  | .error _ => (.error (), sp.2)
  | .ok none => (.error (), sp.2)
  | .ok (some prog) =>
      let _shaderProgramInfo : ProgramInfo := ⟨some prog⟩
      let lookups : List GLCall :=
        [.getAttribLocation prog "Vertex",
         .getAttribLocation prog "Color",
         .getUniformLocation prog "Projection",
         .getUniformLocation prog "ModelView"]
      let bufs := initBuffers
      (.ok (some prog), sp.2 ++ lookups ++ bufs.2 ++
        [.requestAnimationFrame])

end Animated

/-- Matches the bufferData event, for counting buffer uploads. -/
def isBufferData : GLCall → Bool
  | .bufferData _ _ => true
  | _ => false

/-- Matches the drawArrays event, for counting draw calls. -/
def isDrawArrays : GLCall → Bool
  | .drawArrays _ _ _ => true
  | _ => false

/-- Matches the requestAnimationFrame event, for counting scheduled
frame callbacks. -/
def isRequestFrame : GLCall → Bool
  | .requestAnimationFrame => true
  | _ => false

/-- Matches performed attribute or uniform lookups. -/
def isLookup : GLCall → Bool
  | .getAttribLocation _ _ => true
  | .getUniformLocation _ _ => true
  | _ => false

/-- Matches the user-visible alert notification. -/
def isAlert : GLCall → Bool
  | .alert _ => true
  | _ => false

/-- A sample context in which everything succeeds, used to instantiate
universally quantified theorems at a concrete input. -/
def sampleGL : GLCtx :=
  ⟨fun _ _ => true, fun _ _ => "", fun _ _ => true, "", 1, 1⟩

/-- A context whose compiler rejects every source, exhibiting the
failure path of the pipeline. -/
def badGL : GLCtx :=
  ⟨fun _ _ => false, fun _ _ => "compile log",
   fun _ _ => false, "link log", 1, 1⟩

/-- A sample program info record for concrete instantiations. -/
def sampleInfo : ProgramInfo := ⟨none⟩

/-- The program built from the animated sources in a context where both
stages compile. -/
def sampleAnimatedProgram : Program :=
  ⟨⟨.vertex, Animated.SHADER_VERTEX⟩, ⟨.fragment, Animated.SHADER_FRAGMENT⟩⟩

/-- The program built from the static sources in a context where both
stages compile. -/
def sampleStaticProgram : Program :=
  ⟨⟨.vertex, Static.shader_vertex⟩, ⟨.fragment, Static.shader_fragment⟩⟩

/-- The trace of initShaderProgram never contains draw calls, buffer
uploads, frame scheduling or performed lookups, in any of its
branches. -/
theorem initShaderProgram_trace_pure (gl : GLCtx) (vsrc fsrc : String) :
    (initShaderProgram gl vsrc fsrc).2.countP isDrawArrays = 0 ∧
    (initShaderProgram gl vsrc fsrc).2.countP isRequestFrame = 0 ∧
    (initShaderProgram gl vsrc fsrc).2.countP isBufferData = 0 ∧
    (initShaderProgram gl vsrc fsrc).2.countP isLookup = 0 := by
  cases hv : gl.compileOk .vertex vsrc <;>
    cases hf : gl.compileOk .fragment fsrc <;>
      cases hl : gl.linkOk ⟨.vertex, vsrc⟩ ⟨.fragment, fsrc⟩ <;>
        simp [initShaderProgram, loadShader, hv, hf, hl,
          isDrawArrays, isRequestFrame, isBufferData, isLookup]

/-- Right-multiplying by a Z rotation keeps the fourth column. -/
theorem mul_rotZ_col3 (M : M4) (θ : ℝ) (i : Fin 4) :
    (M * rotZ θ) i 3 = M i 3 := by
  simp [rotZ, Matrix.mul_apply, Fin.sum_univ_four, Matrix.vecHead,
    Matrix.vecTail]

/-- Right-multiplying by a Y rotation keeps the fourth column. -/
theorem mul_rotY_col3 (M : M4) (θ : ℝ) (i : Fin 4) :
    (M * rotY θ) i 3 = M i 3 := by
  simp [rotY, Matrix.mul_apply, Fin.sum_univ_four, Matrix.vecHead,
    Matrix.vecTail]

/-- Right-multiplying by an X rotation keeps the fourth column. -/
theorem mul_rotX_col3 (M : M4) (θ : ℝ) (i : Fin 4) :
    (M * rotX θ) i 3 = M i 3 := by
  simp [rotX, Matrix.mul_apply, Fin.sum_univ_four, Matrix.vecHead,
    Matrix.vecTail]

/-- The singleRotation threshold is positive. -/
theorem singleRotation_pos : 0 < Animated.singleRotation := by
  rw [Animated.singleRotation]
  positivity

/-- The toWorld matrix built in the animated main is just the
translation by (0, 0, -6): the scale and rotation steps are by the
identity amounts. -/
theorem initToWorld_eq : Animated.initToWorld = translateM 0 0 (-6) := by
  rw [Animated.initToWorld, scaleM_one, rotZ_zero, mat4create]
  simp

/-- Closed form of stepUpdate once the start time has been captured as
a nonzero value: progress is measured from that start, and the branch
on progress picks the rotation phase. -/
theorem stepUpdate_started (st : Animated.AnimState) (ts s : ℝ)
    (hs : st.start = some s) (h0 : s ≠ 0) :
    Animated.stepUpdate st ts =
      ⟨some s, (ts - s) * 0.001,
        if ts - s < Animated.singleRotation then
          st.toWorld * rotZ ((ts - s) * 0.001 - st.last)
        else if ts - s < 2 * Animated.singleRotation then
          st.toWorld * rotZ ((ts - s) * 0.001 - st.last) *
            rotY ((ts - s) * 0.001 - st.last) *
            rotX ((ts - s) * 0.001 - st.last)
        else
          st.toWorld⟩ := by
  simp [Animated.stepUpdate, hs, h0]

/-- stepUpdate keeps the fourth column of toWorld in every phase. -/
theorem stepUpdate_col3 (st : Animated.AnimState) (ts : ℝ) (i : Fin 4) :
    (Animated.stepUpdate st ts).toWorld i 3 = st.toWorld i 3 := by
  simp only [Animated.stepUpdate]
  split_ifs <;>
    simp [mul_rotZ_col3, mul_rotY_col3, mul_rotX_col3]

/-- runSteps keeps the fourth column of toWorld across any sequence of
frame callbacks. -/
theorem runSteps_col3 (gl : GLCtx) (info : ProgramInfo)
    (bufs : Animated.Buffers) (tss : List ℝ) :
    ∀ (st : Animated.AnimState) (i : Fin 4),
      (Animated.runSteps gl info bufs st tss).toWorld i 3 =
        st.toWorld i 3 := by
  induction tss with
  | nil => intro st i; rfl
  | cons ts rest ih =>
      intro st i
      rw [Animated.runSteps, ih]
      exact stepUpdate_col3 st ts i

/-- While every frame of a run stays below the singleRotation
threshold, the run only multiplies Z rotations onto toWorld, and the
accumulated angle telescopes to the last curr value minus the initial
last value. -/
theorem runSteps_zphase (gl : GLCtx) (info : ProgramInfo)
    (bufs : Animated.Buffers) (s : ℝ) (h0 : s ≠ 0) :
    ∀ (tss : List ℝ) (tsn l : ℝ) (W : M4),
      (∀ ts ∈ tss ++ [tsn], ts - s < Animated.singleRotation) →
      Animated.runSteps gl info bufs ⟨some s, l, W⟩ (tss ++ [tsn]) =
        ⟨some s, (tsn - s) * 0.001,
          W * rotZ ((tsn - s) * 0.001 - l)⟩ := by
  intro tss
  induction tss with
  | nil =>
      intro tsn l W h
      have hn : tsn - s < Animated.singleRotation := by
        exact h tsn (by simp)
      show Animated.runSteps gl info bufs _ []
        = _
      rw [Animated.runSteps]
      show Animated.stepUpdate ⟨some s, l, W⟩ tsn = _
      rw [stepUpdate_started ⟨some s, l, W⟩ tsn s rfl h0]
      simp [hn]
  | cons ts rest ih =>
      intro tsn l W h
      have hts : ts - s < Animated.singleRotation := by
        exact h ts (by simp)
      have hrest : ∀ u ∈ rest ++ [tsn], u - s < Animated.singleRotation := by
        intro u hu
        refine h u ?_
        simp at hu ⊢
        tauto
      have hstep : (Animated.step gl info bufs ⟨some s, l, W⟩ ts).1 =
          ⟨some s, (ts - s) * 0.001, W * rotZ ((ts - s) * 0.001 - l)⟩ := by
        show Animated.stepUpdate ⟨some s, l, W⟩ ts = _
        rw [stepUpdate_started ⟨some s, l, W⟩ ts s rfl h0]
        simp [hts]
      show Animated.runSteps gl info bufs _ (rest ++ [tsn]) = _
      rw [hstep, ih tsn ((ts - s) * 0.001)
        (W * rotZ ((ts - s) * 0.001 - l)) hrest]
      rw [mul_assoc, rotZ_mul_rotZ]
      have harith : (ts - s) * 0.001 - l +
          ((tsn - s) * 0.001 - (ts - s) * 0.001) =
          (tsn - s) * 0.001 - l := by ring
      rw [harith]

/-- C3: for a frame whose elapsed time t = ts - start satisfies
singleRotation <= t < 2 * singleRotation, the callback right-multiplies
toWorld by exactly three rotations, about Z, then Y, then X, in that
order, each by the same angle delta = curr - last, the frame delta time
in seconds. -/
theorem midPhase_rotates_z_y_x_in_order (gl : GLCtx) (info : ProgramInfo)
    (bufs : Animated.Buffers) (st : Animated.AnimState) (ts s : ℝ)
    (hs : st.start = some s) (h0 : s ≠ 0)
    (h1 : Animated.singleRotation ≤ ts - s)
    (h2 : ts - s < 2 * Animated.singleRotation) :
    (Animated.step gl info bufs st ts).1.toWorld =
      st.toWorld * rotZ ((ts - s) * 0.001 - st.last)
        * rotY ((ts - s) * 0.001 - st.last)
        * rotX ((ts - s) * 0.001 - st.last) := by
  show (Animated.stepUpdate st ts).toWorld = _
  rw [stepUpdate_started st ts s hs h0]
  simp only [if_neg (not_lt.mpr h1), if_pos h2]

/-- Witness for C3 at a concrete frame inside the second phase. -/
theorem midPhase_rotates_z_y_x_in_order_witness :
    ((⟨some 1, 0, 1⟩ : Animated.AnimState).start = some 1 ∧
     (1 : ℝ) ≠ 0 ∧
     Animated.singleRotation ≤ (1 + 3000 * Real.pi) - 1 ∧
     (1 + 3000 * Real.pi) - 1 < 2 * Animated.singleRotation) ∧
    (Animated.step sampleGL sampleInfo Animated.initBuffers.1
        ⟨some 1, 0, 1⟩ (1 + 3000 * Real.pi)).1.toWorld =
      (⟨some 1, 0, 1⟩ : Animated.AnimState).toWorld
        * rotZ (((1 + 3000 * Real.pi) - 1) * 0.001 -
            (⟨some 1, 0, 1⟩ : Animated.AnimState).last)
        * rotY (((1 + 3000 * Real.pi) - 1) * 0.001 -
            (⟨some 1, 0, 1⟩ : Animated.AnimState).last)
        * rotX (((1 + 3000 * Real.pi) - 1) * 0.001 -
            (⟨some 1, 0, 1⟩ : Animated.AnimState).last) := by
  have hs : (⟨some 1, 0, 1⟩ : Animated.AnimState).start = some 1 := rfl
  have h0 : (1 : ℝ) ≠ 0 := one_ne_zero
  have h1 : Animated.singleRotation ≤ (1 + 3000 * Real.pi) - 1 := by
    rw [Animated.singleRotation]
    nlinarith [Real.pi_pos]
  have h2 : (1 + 3000 * Real.pi) - 1 < 2 * Animated.singleRotation := by
    rw [Animated.singleRotation]
    nlinarith [Real.pi_pos]
  exact ⟨⟨hs, h0, h1, h2⟩,
    midPhase_rotates_z_y_x_in_order sampleGL sampleInfo
      Animated.initBuffers.1 ⟨some 1, 0, 1⟩ (1 + 3000 * Real.pi) 1
      hs h0 h1 h2⟩

/-- C4: while every frame of a run stays in the first phase
(elapsed time below singleRotation), toWorld accumulates only Z
rotation: after frames with delta times d1..dn the final matrix is the
initial one times a single Z rotation whose angle is the telescoped sum
of the deltas, curr_n - last_0 = (t_n - start) / 1000 - last_0. -/
theorem zPhase_accumulates_only_z (gl : GLCtx) (info : ProgramInfo)
    (bufs : Animated.Buffers) (s l : ℝ) (W : M4) (tss : List ℝ)
    (tsn : ℝ) (h0 : s ≠ 0)
    (hlt : ∀ ts ∈ tss ++ [tsn], ts - s < Animated.singleRotation) :
    Animated.runSteps gl info bufs ⟨some s, l, W⟩ (tss ++ [tsn]) =
      ⟨some s, (tsn - s) * 0.001, W * rotZ ((tsn - s) * 0.001 - l)⟩ :=
  runSteps_zphase gl info bufs s h0 tss tsn l W hlt

/-- Witness for C4: a two-frame run inside the first phase. -/
theorem zPhase_accumulates_only_z_witness :
    ((1 : ℝ) ≠ 0 ∧
     (∀ ts ∈ ([2] ++ [(3 : ℝ)]), ts - 1 < Animated.singleRotation)) ∧
    Animated.runSteps sampleGL sampleInfo Animated.initBuffers.1
        ⟨some 1, 0, 1⟩ ([2] ++ [(3 : ℝ)]) =
      ⟨some 1, ((3 : ℝ) - 1) * 0.001,
        (1 : M4) * rotZ (((3 : ℝ) - 1) * 0.001 - 0)⟩ := by
  have h0 : (1 : ℝ) ≠ 0 := one_ne_zero
  have hlt : ∀ ts ∈ ([2] ++ [(3 : ℝ)]), ts - 1 < Animated.singleRotation := by
    intro ts hts
    rw [Animated.singleRotation]
    simp at hts
    rcases hts with h | h <;> rw [h] <;> nlinarith [Real.pi_gt_three]
  exact ⟨⟨h0, hlt⟩,
    zPhase_accumulates_only_z sampleGL sampleInfo Animated.initBuffers.1
      1 0 1 [2] 3 h0 hlt⟩

/-- C5: once the elapsed time reaches 2 * singleRotation, the frame
callback leaves toWorld exactly unchanged (frozen, not reset), while
still issuing the triangle-strip draw of 4 vertices and unconditionally
requesting the next animation frame. -/
theorem frozen_phase_leaves_world_unchanged (gl : GLCtx)
    (info : ProgramInfo) (bufs : Animated.Buffers)
    (st : Animated.AnimState) (ts s : ℝ)
    (hs : st.start = some s) (h0 : s ≠ 0)
    (h2 : 2 * Animated.singleRotation ≤ ts - s) :
    (Animated.step gl info bufs st ts).1.toWorld = st.toWorld ∧
    GLCall.drawArrays .triangleStrip 0 4 ∈
      (Animated.step gl info bufs st ts).2 ∧
    GLCall.requestAnimationFrame ∈ (Animated.step gl info bufs st ts).2 := by
  have hT : 0 < Animated.singleRotation := singleRotation_pos
  have hn1 : ¬(ts - s < Animated.singleRotation) := by
    push_neg
    linarith
  have hn2 : ¬(ts - s < 2 * Animated.singleRotation) := by
    push_neg
    linarith
  refine ⟨?_, ?_, ?_⟩
  · show (Animated.stepUpdate st ts).toWorld = _
    rw [stepUpdate_started st ts s hs h0]
    simp only [if_neg hn1, if_neg hn2]
  · simp [Animated.step, Animated.drawScene]
  · simp [Animated.step]

/-- Witness for C5 at a concrete frame past twice singleRotation. -/
theorem frozen_phase_leaves_world_unchanged_witness :
    ((⟨some 1, 0, 1⟩ : Animated.AnimState).start = some 1 ∧
     (1 : ℝ) ≠ 0 ∧
     2 * Animated.singleRotation ≤
       (1 + 2 * Animated.singleRotation) - 1) ∧
    ((Animated.step sampleGL sampleInfo Animated.initBuffers.1
        ⟨some 1, 0, 1⟩ (1 + 2 * Animated.singleRotation)).1.toWorld =
      (⟨some 1, 0, 1⟩ : Animated.AnimState).toWorld ∧
    GLCall.drawArrays .triangleStrip 0 4 ∈
      (Animated.step sampleGL sampleInfo Animated.initBuffers.1
        ⟨some 1, 0, 1⟩ (1 + 2 * Animated.singleRotation)).2 ∧
    GLCall.requestAnimationFrame ∈
      (Animated.step sampleGL sampleInfo Animated.initBuffers.1
        ⟨some 1, 0, 1⟩ (1 + 2 * Animated.singleRotation)).2) := by
  have hs : (⟨some 1, 0, 1⟩ : Animated.AnimState).start = some 1 := rfl
  have h0 : (1 : ℝ) ≠ 0 := one_ne_zero
  have h2 : 2 * Animated.singleRotation ≤
      (1 + 2 * Animated.singleRotation) - 1 := by
    linarith
  exact ⟨⟨hs, h0, h2⟩,
    frozen_phase_leaves_world_unchanged sampleGL sampleInfo
      Animated.initBuffers.1 ⟨some 1, 0, 1⟩
      (1 + 2 * Animated.singleRotation) 1 hs h0 h2⟩

/-- C8: every animated frame sends to the ModelView uniform the product
of the current toWorld with a fresh identity base, which equals toWorld
itself by the identity law; and the frame trace draws with exactly the
post-update toWorld, which drawScene never modifies. -/
theorem modelview_equals_world_transform (gl : GLCtx)
    (info : ProgramInfo) (bufs : Animated.Buffers) (w : M4)
    (st : Animated.AnimState) (ts : ℝ) :
    GLCall.uniformMatrix4fv "ModelView" (w * mat4create) ∈
      Animated.drawScene gl info bufs w ∧
    w * mat4create = w ∧
    (Animated.step gl info bufs st ts).2 =
      Animated.drawScene gl info bufs
        ((Animated.step gl info bufs st ts).1.toWorld) ++
        [GLCall.requestAnimationFrame] := by
  refine ⟨?_, ?_, rfl⟩
  · simp [Animated.drawScene]
  · rw [mat4create]
    exact mul_one w

/-- C9: on the very first callback the start time is captured from the
incoming timestamp, the delta is 0 - 0 = 0, and the zero-angle Z
rotation leaves toWorld unchanged. -/
theorem first_frame_leaves_world_unchanged (gl : GLCtx)
    (info : ProgramInfo) (bufs : Animated.Buffers) (ts : ℝ) :
    (Animated.step gl info bufs Animated.animInit ts).1.start = some ts ∧
    (Animated.step gl info bufs Animated.animInit ts).1.toWorld =
      Animated.animInit.toWorld := by
  constructor
  · show (Animated.stepUpdate Animated.animInit ts).start = _
    simp [Animated.stepUpdate, Animated.animInit]
  · show (Animated.stepUpdate Animated.animInit ts).toWorld = _
    simp [Animated.stepUpdate, Animated.animInit, singleRotation_pos,
      rotZ_zero]

/-- C10: the fourth (translation) column of toWorld is (0, 0, -6, 1)
initially and after every frame of every run: each phase only
right-multiplies by rotation matrices whose fourth column is the
identity one. -/
theorem translation_column_invariant (gl : GLCtx) (info : ProgramInfo)
    (bufs : Animated.Buffers) (tss : List ℝ) (i : Fin 4) :
    (Animated.runSteps gl info bufs Animated.animInit tss).toWorld i 3 =
      ![(0 : ℝ), 0, -6, 1] i := by
  rw [runSteps_col3 gl info bufs tss Animated.animInit i]
  have hinit : Animated.animInit.toWorld = translateM 0 0 (-6) :=
    initToWorld_eq
  rw [hinit]
  fin_cases i <;>
    simp [translateM, Matrix.vecHead, Matrix.vecTail]

/-- C6: the position payload of both variants is the 4 corner vertices
(1,1), (-1,1), (1,-1), (-1,-1) read as 2-float pairs; the animated
color payload is the 4 RGBA entries white, red, green, blue; in a run
whose pipeline was built successfully, each buffer is uploaded exactly
once with the STATIC_DRAW hint at setup, and no frame callback ever
uploads buffer data again. -/
theorem buffer_contents_and_static_upload (gl : GLCtx) (p : Program)
    (hok : (Animated.main gl).1 = Except.ok (some p)) :
    pairUp Static.positions = [(1, 1), (-1, 1), (1, -1), (-1, -1)] ∧
    pairUp Animated.positions = [(1, 1), (-1, 1), (1, -1), (-1, -1)] ∧
    quadUp Animated.colors =
      [(1, 1, 1, 1), (1, 0, 0, 1), (0, 1, 0, 1), (0, 0, 1, 1)] ∧
    Animated.initBuffers.2 =
      [.bufferData Animated.positions .staticDraw,
       .bufferData Animated.colors .staticDraw] ∧
    Static.initBuffers.2 = [.bufferData Static.positions .staticDraw] ∧
    (Animated.main gl).2.countP isBufferData = 2 ∧
    (∀ (gl' : GLCtx) (info : ProgramInfo) (bufs : Animated.Buffers)
        (st : Animated.AnimState) (ts : ℝ),
      (Animated.step gl' info bufs st ts).2.countP isBufferData = 0) := by
  refine ⟨rfl, rfl, rfl, rfl, rfl, ?_, ?_⟩
  · have h := (initShaderProgram_trace_pure gl Animated.SHADER_VERTEX
      Animated.SHADER_FRAGMENT).2.2.1
    rcases hsp : (initShaderProgram gl Animated.SHADER_VERTEX
        Animated.SHADER_FRAGMENT).1 with e | op
    · simp [Animated.main, hsp] at hok
    · cases op with
      | none => simp [Animated.main, hsp] at hok
      | some prog =>
          simp [Animated.main, hsp, List.countP_append, h,
            Animated.initBuffers, isBufferData, List.countP_cons]
  · intro gl' info bufs st ts
    simp [Animated.step, Animated.drawScene, isBufferData,
      List.countP_append, List.countP_cons]

/-- Witness for C6 at a concrete context whose pipeline succeeds. -/
theorem buffer_contents_and_static_upload_witness :
    (Animated.main sampleGL).1 = Except.ok (some sampleAnimatedProgram) ∧
    (pairUp Static.positions = [(1, 1), (-1, 1), (1, -1), (-1, -1)] ∧
    pairUp Animated.positions = [(1, 1), (-1, 1), (1, -1), (-1, -1)] ∧
    quadUp Animated.colors =
      [(1, 1, 1, 1), (1, 0, 0, 1), (0, 1, 0, 1), (0, 0, 1, 1)] ∧
    Animated.initBuffers.2 =
      [.bufferData Animated.positions .staticDraw,
       .bufferData Animated.colors .staticDraw] ∧
    Static.initBuffers.2 = [.bufferData Static.positions .staticDraw] ∧
    (Animated.main sampleGL).2.countP isBufferData = 2 ∧
    (∀ (gl' : GLCtx) (info : ProgramInfo) (bufs : Animated.Buffers)
        (st : Animated.AnimState) (ts : ℝ),
      (Animated.step gl' info bufs st ts).2.countP isBufferData = 0)) := by
  have hok : (Animated.main sampleGL).1 =
      Except.ok (some sampleAnimatedProgram) := by
    simp [Animated.main, initShaderProgram, loadShader, sampleGL,
      sampleAnimatedProgram]
  exact ⟨hok,
    buffer_contents_and_static_upload sampleGL sampleAnimatedProgram hok⟩

/-- C7: when its pipeline was built successfully, the static main
issues exactly one draw call, a triangle strip of 4 vertices, with the
ModelView uniform set to the identity translated by (0, 0, -6), and
never schedules a frame callback. -/
theorem static_main_single_draw (gl : GLCtx) (p : Program)
    (hok : (Static.main gl).1 = Except.ok (some p)) :
    (Static.main gl).2.countP isDrawArrays = 1 ∧
    GLCall.drawArrays .triangleStrip 0 4 ∈ (Static.main gl).2 ∧
    GLCall.uniformMatrix4fv "ModelView"
        (mat4create * translateM 0 0 (-6)) ∈ (Static.main gl).2 ∧
    mat4create * translateM 0 0 (-6) = translateM 0 0 (-6) ∧
    (Static.main gl).2.countP isRequestFrame = 0 := by
  have h := initShaderProgram_trace_pure gl Static.shader_vertex
    Static.shader_fragment
  rcases hsp : (initShaderProgram gl Static.shader_vertex
      Static.shader_fragment).1 with e | op
  · simp [Static.main, hsp] at hok
  · cases op with
    | none => simp [Static.main, hsp] at hok
    | some prog =>
        refine ⟨?_, ?_, ?_, ?_, ?_⟩
        · simp [Static.main, hsp, List.countP_append, h.1,
            Static.initBuffers, Static.drawScene, isDrawArrays,
            List.countP_cons]
        · simp [Static.main, hsp, Static.drawScene]
        · simp [Static.main, hsp, Static.drawScene]
        · rw [mat4create]
          exact one_mul _
        · simp [Static.main, hsp, List.countP_append, h.2.1,
            Static.initBuffers, Static.drawScene, isRequestFrame,
            List.countP_cons]

/-- Witness for C7 at a concrete context whose pipeline succeeds. -/
theorem static_main_single_draw_witness :
    (Static.main sampleGL).1 = Except.ok (some sampleStaticProgram) ∧
    ((Static.main sampleGL).2.countP isDrawArrays = 1 ∧
    GLCall.drawArrays .triangleStrip 0 4 ∈ (Static.main sampleGL).2 ∧
    GLCall.uniformMatrix4fv "ModelView"
        (mat4create * translateM 0 0 (-6)) ∈ (Static.main sampleGL).2 ∧
    mat4create * translateM 0 0 (-6) = translateM 0 0 (-6) ∧
    (Static.main sampleGL).2.countP isRequestFrame = 0) := by
  have hok : (Static.main sampleGL).1 =
      Except.ok (some sampleStaticProgram) := by
    simp [Static.main, initShaderProgram, loadShader, sampleGL,
      sampleStaticProgram]
  exact ⟨hok, static_main_single_draw sampleGL sampleStaticProgram hok⟩

/-- C2: when compilation of either stage fails, that stage's diagnostic
log is reported via alert, and construction aborts before any link
step: loadShader returns null, the attachShader call with the null
handle throws a TypeError, and linkProgram never appears in the
trace. -/
theorem compile_failure_aborts_before_link (gl : GLCtx)
    (vsrc fsrc : String)
    (hfail : gl.compileOk .vertex vsrc = false ∨
      gl.compileOk .fragment fsrc = false) :
    (gl.compileOk .vertex vsrc = false →
      GLCall.alert ("An error occurred compiling the shaders: " ++
          gl.shaderInfoLog .vertex vsrc) ∈
        (initShaderProgram gl vsrc fsrc).2) ∧
    (gl.compileOk .fragment fsrc = false →
      GLCall.alert ("An error occurred compiling the shaders: " ++
          gl.shaderInfoLog .fragment fsrc) ∈
        (initShaderProgram gl vsrc fsrc).2) ∧
    (initShaderProgram gl vsrc fsrc).1 = Except.error () ∧
    GLCall.linkProgram ∉ (initShaderProgram gl vsrc fsrc).2 := by
  cases hv : gl.compileOk .vertex vsrc <;>
    cases hf : gl.compileOk .fragment fsrc
  · refine ⟨?_, ?_, ?_, ?_⟩ <;>
      simp [initShaderProgram, loadShader, hv, hf]
  · refine ⟨?_, ?_, ?_, ?_⟩ <;>
      simp [initShaderProgram, loadShader, hv, hf]
  · refine ⟨?_, ?_, ?_, ?_⟩ <;>
      simp [initShaderProgram, loadShader, hv, hf]
  · exfalso
    rcases hfail with h | h
    · simp [hv] at h
    · simp [hf] at h

/-- Witness for C2 at the concrete failing context. -/
theorem compile_failure_aborts_before_link_witness :
    (badGL.compileOk .vertex Animated.SHADER_VERTEX = false ∨
     badGL.compileOk .fragment Animated.SHADER_FRAGMENT = false) ∧
    ((badGL.compileOk .vertex Animated.SHADER_VERTEX = false →
      GLCall.alert ("An error occurred compiling the shaders: " ++
          badGL.shaderInfoLog .vertex Animated.SHADER_VERTEX) ∈
        (initShaderProgram badGL Animated.SHADER_VERTEX
          Animated.SHADER_FRAGMENT).2) ∧
    (badGL.compileOk .fragment Animated.SHADER_FRAGMENT = false →
      GLCall.alert ("An error occurred compiling the shaders: " ++
          badGL.shaderInfoLog .fragment Animated.SHADER_FRAGMENT) ∈
        (initShaderProgram badGL Animated.SHADER_VERTEX
          Animated.SHADER_FRAGMENT).2) ∧
    (initShaderProgram badGL Animated.SHADER_VERTEX
        Animated.SHADER_FRAGMENT).1 = Except.error () ∧
    GLCall.linkProgram ∉
      (initShaderProgram badGL Animated.SHADER_VERTEX
        Animated.SHADER_FRAGMENT).2) :=
  ⟨Or.inl rfl,
    compile_failure_aborts_before_link badGL Animated.SHADER_VERTEX
      Animated.SHADER_FRAGMENT (Or.inl rfl)⟩

/-- C1: if either stage's source is invalid (its compile fails, or both
compile and the link fails), the animated main produces no program
handle, reports a user-visible alert, and halts setup: the trace
contains no performed attribute or uniform lookup, no draw call and no
scheduled frame callback. For a compile failure the abort is the
TypeError thrown by attachShader(program, null); for a link failure it
is the TypeError thrown by getAttribLocation(null, Vertex). -/
theorem shader_failure_halts_setup (gl : GLCtx)
    (hfail : gl.compileOk .vertex Animated.SHADER_VERTEX = false ∨
      gl.compileOk .fragment Animated.SHADER_FRAGMENT = false ∨
      gl.linkOk ⟨.vertex, Animated.SHADER_VERTEX⟩
        ⟨.fragment, Animated.SHADER_FRAGMENT⟩ = false) :
    (Animated.main gl).1 = Except.error () ∧
    0 < (Animated.main gl).2.countP isAlert ∧
    (Animated.main gl).2.countP isLookup = 0 ∧
    (Animated.main gl).2.countP isDrawArrays = 0 ∧
    (Animated.main gl).2.countP isRequestFrame = 0 := by
  rcases hfail with h | h | h
  · cases hf : gl.compileOk .fragment Animated.SHADER_FRAGMENT <;>
      refine ⟨?_, ?_, ?_, ?_, ?_⟩ <;>
        simp [Animated.main, initShaderProgram, loadShader, h, hf,
          isAlert, isLookup, isDrawArrays, isRequestFrame,
          List.countP_append, List.countP_cons]
  · cases hv : gl.compileOk .vertex Animated.SHADER_VERTEX <;>
      refine ⟨?_, ?_, ?_, ?_, ?_⟩ <;>
        simp [Animated.main, initShaderProgram, loadShader, h, hv,
          isAlert, isLookup, isDrawArrays, isRequestFrame,
          List.countP_append, List.countP_cons]
  · cases hv : gl.compileOk .vertex Animated.SHADER_VERTEX <;>
      cases hf : gl.compileOk .fragment Animated.SHADER_FRAGMENT <;>
        refine ⟨?_, ?_, ?_, ?_, ?_⟩ <;>
          simp [Animated.main, initShaderProgram, loadShader, h, hv, hf,
            isAlert, isLookup, isDrawArrays, isRequestFrame,
            List.countP_append, List.countP_cons]

/-- Witness for C1 at the concrete failing context. -/
theorem shader_failure_halts_setup_witness :
    (badGL.compileOk .vertex Animated.SHADER_VERTEX = false ∨
     badGL.compileOk .fragment Animated.SHADER_FRAGMENT = false ∨
     badGL.linkOk ⟨.vertex, Animated.SHADER_VERTEX⟩
       ⟨.fragment, Animated.SHADER_FRAGMENT⟩ = false) ∧
    ((Animated.main badGL).1 = Except.error () ∧
    0 < (Animated.main badGL).2.countP isAlert ∧
    (Animated.main badGL).2.countP isLookup = 0 ∧
    (Animated.main badGL).2.countP isDrawArrays = 0 ∧
    (Animated.main badGL).2.countP isRequestFrame = 0) :=
  ⟨Or.inl rfl, shader_failure_halts_setup badGL (Or.inl rfl)⟩
